import Mathlib

/-!
# Verification of the tiered data-acquisition layer of the Ministr dashboard

Shallow embedding of the repository's core:

* `data_loader.py` — the `DataLoader` class: per-dataset loaders that probe a
  live source (best effort) and fall back to a local snapshot file, with every
  failure path caught inside the method.
* `scripts/update_data.py` — the scheduled refresh entry point
  `update_all_data` and the three per-dataset fetch stubs.
* `app.py` — the scheduler-initialisation guard and the presentation-layer
  computations the spec constrains (top-5 UNESCO table, budget total).

Python exceptions are modelled with `Except PyErr`; a `try/except` block is the
`pyTry` combinator.  File reads and HTTP requests are inputs of the embedded
functions: an `Except.error` input stands for the operation raising (missing
file, malformed content, connection error, timeout), an `Except.ok` input for
it returning that value.  `pandas` dataframes are lists of typed row
structures; Python floats are modelled as rationals (`ℚ`).
-/

/-- Python exception values: only the class and message matter here. -/
inductive PyErr : Type where
  | ioError : String → PyErr
  | valueError : String → PyErr
  | keyError : String → PyErr
  | requestError : String → PyErr
deriving DecidableEq

/-- A Python `try: body except Exception: handler` block: the handler sees any
exception the body raises, so the block as a whole never raises. -/
def pyTry {α : Type} (body : Except PyErr α) (handler : PyErr → α) : α :=
  match body with
  | .ok a => a
  | .error e => handler e

/-- Whether an embedded computation returned normally (no uncaught exception). -/
def isOkResult {ε α : Type} : Except ε α → Bool
  | .ok _ => true
  | .error _ => false

/-- Digit string to a natural number (helper for the `int`/`float` models). -/
def digitsToNat (l : List Char) : Nat :=
  l.foldl (fun n c => n * 10 + (c.toNat - 48)) 0

/-- Model of Python `int(s)` on decimal strings: optional surrounding
whitespace, optional sign, one or more digits; `none` when `int` would raise
`ValueError` (e.g. on `"42.0"` or `"n/a"`). -/
def pyInt? (s : String) : Option Int :=
  let t := s.trim.data
  let signed : Int × List Char :=
    match t with
    | '-' :: rest => (-1, rest)
    | '+' :: rest => (1, rest)
    | l => (1, l)
  if signed.2 ≠ [] ∧ signed.2.all Char.isDigit then
    some (signed.1 * (digitsToNat signed.2 : Int))
  else none

/-- Model of Python `float(s)` on plain decimal literals (optional sign,
digits, optional fractional part), returning an exact rational; `none` when
`float` would raise `ValueError`. -/
def pyFloat? (s : String) : Option ℚ :=
  let t := s.trim.data
  let signed : ℚ × List Char :=
    match t with
    | '-' :: rest => (-1, rest)
    | '+' :: rest => (1, rest)
    | l => (1, l)
  let intPart := signed.2.takeWhile (fun c => c != '.')
  match signed.2.dropWhile (fun c => c != '.') with
  | [] =>
    if intPart ≠ [] ∧ intPart.all Char.isDigit then
      some (signed.1 * (digitsToNat intPart : ℚ))
    else none
  | '.' :: frac =>
    if (intPart ≠ [] ∨ frac ≠ []) ∧ intPart.all Char.isDigit ∧ frac.all Char.isDigit then
      some (signed.1 * ((digitsToNat intPart : ℚ) + (digitsToNat frac : ℚ) / (10 ^ frac.length)))
    else none
  | _ => none

/-- An HTTP response as the loaders inspect it (only the status code). -/
structure HttpResponse where
  status : Nat
deriving DecidableEq

/-- One row of `data/fallback_unesco.csv` (columns used by the app and tests). -/
structure UnescoRow where
  name : String
  lat : ℚ
  lon : ℚ
  visitors_2024 : Int
  renovation_roi : ℚ
deriving DecidableEq

/-- One row of `data/budget_official.csv`. -/
structure BudgetRow where
  Year : Int
  Category : String
  Amount_CZK : ℚ
  Description : String
deriving DecidableEq

/-- One row of `data/fallback_artists.csv` (key/value layout: an `indicator`
name and its raw string `value`). -/
structure ArtistRow where
  indicator : String
  value : String
deriving DecidableEq

/-- The record `load_artist_status` builds from the artist snapshot. -/
structure ArtistRecord where
  registered_count : Int
  disciplines : List (String × ℚ)
deriving DecidableEq

/-- The nameday endpoint's response: status code plus the parsed JSON body, a
list of string-keyed dicts (`Except.error` = `response.json()` raising). -/
structure NamedayHttp where
  status : Nat
  json : Except PyErr (List (List (String × String)))

namespace DataLoader

/-- TTL of the `st.cache_data` decorator on `load_economic_indicators`. -/
def econ_ttl : Nat := 86400

/-- TTL of the `st.cache_data` decorator on `load_unesco_sites`. -/
def unesco_ttl : Nat := 604800

/-- TTL of the `st.cache_data` decorator on `load_budget`. -/
def budget_ttl : Nat := 86400

/-- TTL of the `st.cache_data` decorator on `load_nameday`. -/
def nameday_ttl : Nat := 3600

/-- TTL of the `st.cache_data` decorator on `load_artist_status`. -/
def artist_ttl : Nat := 86400

/-- Request timeout (seconds) of the nameday fetch. -/
def nameday_timeout : Nat := 3

/-- Request timeout (seconds) of the CZSO probe in `load_economic_indicators`. -/
def czso_timeout : Nat := 3

/-- `DataLoader.load_economic_indicators` (data_loader.py lines 26-56).
`probe` is the outcome of `requests.get(CZSO_API_URL + "/sady/mzdy/ukazatele",
timeout=3)`; `file` is the outcome of reading and JSON-parsing
`data/fallback_economics.json`.  The probe's response is only logged — a 200
prints a success line, everything else is caught and printed — and the method
then always returns the fallback file's content, or `None` if reading it
raises.  Polymorphic in `α` because `json.load` returns the file's content
unchanged, whatever its shape. -/
def load_economic_indicators {α : Type} (probe : Except PyErr HttpResponse)
    (file : Except PyErr α) : Except PyErr (Option α) :=
  -- first try/except: the CZSO connectivity probe; its data is never returned
  let _probe_logged : Bool :=
    match probe with
    | .ok resp => resp.status == 200
    | .error _ => false
  -- second try/except: `return json.load(f)`, `except: return None`
  Except.ok (pyTry
    (match file with
     | .ok j => .ok (some j)
     | .error e => .error e)
    (fun _ => none))

/-- `DataLoader.load_unesco_sites` (data_loader.py lines 59-95).  The first
try block only defines the (unused) `parse_wkt_point` helper and falls through
with `pass`; the method then returns `pd.read_csv("data/fallback_unesco.csv")`
unchanged, or an empty dataframe if reading raises. -/
def load_unesco_sites (file : Except PyErr (List UnescoRow)) :
    Except PyErr (List UnescoRow) :=
  Except.ok (pyTry
    (match file with
     | .ok df => .ok df
     | .error e => .error e)
    (fun _ => []))

/-- `DataLoader.load_budget` (data_loader.py lines 98-110): read
`data/budget_official.csv` and keep the rows whose `Year` equals the requested
year (`df[df['Year'] == year].copy()`); empty dataframe if reading raises. -/
def load_budget (year : Int) (file : Except PyErr (List BudgetRow)) :
    Except PyErr (List BudgetRow) :=
  Except.ok (pyTry
    (match file with
     | .ok df => .ok (df.filter (fun r => r.Year == year))
     | .error e => .error e)
    (fun _ => []))

/-- `DataLoader.load_nameday` (data_loader.py lines 113-128): fetch
`https://svatky.adresa.info/json` (3 s timeout), `raise_for_status()` (raises
`HTTPError` exactly for client/server error statuses, `400 ≤ status < 600`;
other statuses pass through), parse JSON; on a non-empty list return the first
entry's `'name'` (a missing key raises `KeyError`, caught below), on an empty
list return `"Unknown"`; any exception is caught and mapped to `None`. -/
def load_nameday (resp : Except PyErr NamedayHttp) : Except PyErr (Option String) :=
  Except.ok (pyTry
    (match resp with
     | .error e => .error e
     | .ok r =>
       if 400 ≤ r.status ∧ r.status < 600 then .error (.requestError "raise_for_status")
       else
         match r.json with
         | .error e => .error e
         | .ok [] => .ok (some "Unknown")
         | .ok (d :: _) =>
           match d.lookup "name" with
           | some name => .ok (some name)
           | none => .error (.keyError "name"))
    (fun _ => none))

/-- `DataLoader.load_artist_status` (data_loader.py lines 131-173).  The first
try/except is inert (the live-sheet request is commented out; the body is
`pass`).  The fallback block reads `data/fallback_artists.csv`, takes
`int(value)` of the first `registered_count` row — defaulting the count to `0`
when no such row exists — and collects every other row whose value parses as a
float into `disciplines` (parse failures are silently skipped); any exception
in the block (unreadable file, non-integer `registered_count` value) is caught
and mapped to `None`. -/
def load_artist_status (file : Except PyErr (List ArtistRow)) :
    Except PyErr (Option ArtistRecord) :=
  Except.ok (pyTry
    (match file with
     | .error e => .error e
     | .ok df =>
       let disciplines : List (String × ℚ) := df.filterMap (fun r =>
         if r.indicator != "registered_count" then
           (pyFloat? r.value).map (fun q => (r.indicator, q))
         else none)
       match df.filter (fun r => r.indicator == "registered_count") with
       | [] => .ok (some ⟨0, disciplines⟩)
       | r :: _ =>
         match pyInt? r.value with
         | some n => .ok (some ⟨n, disciplines⟩)
         | none => .error (.valueError r.value))
    (fun _ => none))

/-- A live-probe outcome counts as failed when the request raised (connection
error, timeout) or the response's status is not 200 (data_loader.py line 37
only acts on `status_code == 200`). -/
def probeFailed (probe : Except PyErr HttpResponse) : Bool :=
  match probe with
  | .error _ => true
  | .ok resp => resp.status != 200

end DataLoader

/-! ## app.py: presentation-layer computations constrained by the spec -/

/-- The three columns the Heritage module projects out of the UNESCO dataframe
before sorting (`sites_df[["name", "visitors_2024", "renovation_roi"]]`,
app.py line 151). -/
structure TopSiteRow where
  name : String
  visitors_2024 : Int
  renovation_roi : ℚ
deriving DecidableEq

/-- Descending order on `visitors_2024`: row `a` may come before row `b` in
`sort_values("visitors_2024", ascending=False)` iff `b`'s count is ≤ `a`'s. -/
def visitorsDesc (a b : TopSiteRow) : Prop :=
  b.visitors_2024 ≤ a.visitors_2024

instance : DecidableRel visitorsDesc := fun a b =>
  inferInstanceAs (Decidable (b.visitors_2024 ≤ a.visitors_2024))

/-- The projection `sites_df[["name", "visitors_2024", "renovation_roi"]]`
applied before sorting (app.py line 151). -/
def projectTop (df : List UnescoRow) : List TopSiteRow :=
  df.map (fun r => ⟨r.name, r.visitors_2024, r.renovation_roi⟩)

/-- The contract of `sort_values("visitors_2024", ascending=False)` at app.py
line 151: pandas' default `kind='quicksort'` guarantees only that the output
is a permutation of the input rows ordered by the single key `visitors_2024`
descending; the sort is documented as not stable, so the relative order of
rows tied on the key is unspecified and any permutation satisfying this
predicate is a possible output of the code. -/
def sort_values_desc_output (df : List UnescoRow) (out : List TopSiteRow) : Prop :=
  out.Perm (projectTop df) ∧ List.Sorted visitorsDesc out

/-- The State Budget module's displayed total (app.py line 171):
`budget_df['Amount_CZK'].sum()` over the year-filtered dataframe. -/
def total_budget (df : List BudgetRow) : ℚ :=
  (df.map BudgetRow.Amount_CZK).sum

/-! ## app.py lines 12-21: scheduler initialisation guard

`init_scheduler` builds a `BackgroundScheduler`, registers `update_all_data`
on a `cron hour=6 minute=0` trigger, starts it and registers a shutdown hook.
The guard at lines 19-21 runs it only when `"scheduler_started"` is not in
`st.session_state` — Streamlit's `session_state`, which is a per-browser-
session store, while the scheduler and its job list are per-process.  We model
the process as the number of registered cron jobs plus, per session id, the
`scheduler_started` flag. -/

/-- Process/sessions state for the scheduler guard: `jobs` counts the 06:00
cron registrations made by `scheduler.add_job` (process-global); `started`
holds the ids of the sessions whose `st.session_state` contains
`"scheduler_started"`. -/
structure AppProcess where
  jobs : Nat
  started : List Nat
deriving DecidableEq

/-- `init_scheduler` (app.py lines 12-16): registers one more 06:00 cron job
on the process-wide scheduler. -/
def init_scheduler (p : AppProcess) : AppProcess :=
  { p with jobs := p.jobs + 1 }

/-- One top-to-bottom execution of `app.py` for session `sid` (Streamlit
re-runs the script on every reload/interaction): lines 19-21 call
`init_scheduler` and set the session flag only when `"scheduler_started"` is
absent from that session's `st.session_state`. -/
def script_run (sid : Nat) (p : AppProcess) : AppProcess :=
  if p.started.contains sid then p
  else
    let p' := init_scheduler p
    { p' with started := sid :: p'.started }

/-- A sequence of script executions, each tagged with its session id. -/
def script_runs (sids : List Nat) (p : AppProcess) : AppProcess :=
  sids.foldl (fun q s => script_run s q) p

/-- A fresh process: no cron job registered, no session flags. -/
def freshProcess : AppProcess := ⟨0, []⟩

/-! ## scripts/update_data.py: the scheduled refresh loop -/

/-- The three datasets registered in `DATA_URLS`. -/
inductive DatasetId : Type where
  | unesco | economics | artists
deriving DecidableEq

/-- On-disk snapshot store: the byte content of each fallback file under
`data/`, or `none` when the file is absent. -/
structure SnapshotStore where
  unesco : Option String
  economics : Option String
  artists : Option String
deriving DecidableEq

/-- Exception behaviour of the residual operations inside each fetch
function's `try` block (logging calls, `os.path.exists`): `Except.ok ()` when
the block's body runs to the end, `Except.error e` when some operation in it
raises `e`. -/
structure RefreshEnv where
  unescoBody : Except PyErr Unit
  econBody : Except PyErr Unit
  artistBody : Except PyErr Unit

/-- Outcome of one fetch function: its `try` body completed, or an exception
was raised inside and logged by the `except` clause.  Either way the function
returns normally. -/
inductive FetchOutcome : Type where
  | completed : FetchOutcome
  | caught : PyErr → FetchOutcome
deriving DecidableEq

/-- `fetch_unesco_data` (update_data.py lines 22-42): the `requests.get` and
the file write are commented out; the try body only logs and checks
`os.path.exists(target_path)` to choose a log line.  No probe is performed and
the store is never written. -/
def fetch_unesco_data (env : RefreshEnv) (store : SnapshotStore) :
    SnapshotStore × FetchOutcome :=
  match env.unescoBody with
  | .ok _ => (store, .completed)
  | .error e => (store, .caught e)

/-- `fetch_economic_data` (update_data.py lines 44-61): the request, JSON
parse and file write are commented out; the try body only logs.  The store is
never written. -/
def fetch_economic_data (env : RefreshEnv) (store : SnapshotStore) :
    SnapshotStore × FetchOutcome :=
  match env.econBody with
  | .ok _ => (store, .completed)
  | .error e => (store, .caught e)

/-- `fetch_artist_data` (update_data.py lines 63-77): the request and file
write are commented out; the try body only logs.  The store is never
written. -/
def fetch_artist_data (env : RefreshEnv) (store : SnapshotStore) :
    SnapshotStore × FetchOutcome :=
  match env.artistBody with
  | .ok _ => (store, .completed)
  | .error e => (store, .caught e)

/-- `update_all_data` (update_data.py lines 79-87): run the three fetch steps
sequentially — none of them can raise (each catches internally) — and finish. -/
def update_all_data (env : RefreshEnv) (store : SnapshotStore) :
    SnapshotStore × List (DatasetId × FetchOutcome) :=
  let s1 := fetch_unesco_data env store
  let s2 := fetch_economic_data env s1.1
  let s3 := fetch_artist_data env s2.1
  (s3.1, [(.unesco, s1.2), (.economics, s2.2), (.artists, s3.2)])

/-! ## TTL cache -/

/-- Modelled from the spec: the TTL cache is provided by the third-party
`st.cache_data` decorator, whose implementation is not part of this
repository; §3 (CacheEntry) and §4.3 of the spec define the contract.  A cache
entry holds the last resolved value, the time it was resolved, and its TTL. -/
structure CacheEntry (α : Type) where
  value : α
  resolved_at : Nat
  ttl : Nat
deriving DecidableEq

/-- Modelled from the spec: `getOrResolve(D, resolverFn)` of §4.3 with the
entry-freshness invariant of §3 — a cache entry is served only while
`now − resolved_at < ttl`; on expiry it is treated as absent and the resolver
runs again.  Returns the served value, the cache entry after the call, and
whether the resolver was invoked. -/
def getOrResolve {α : Type} (now ttl : Nat) (entry : Option (CacheEntry α))
    (resolver : Unit → α) : α × CacheEntry α × Bool :=
  match entry with
  | some e =>
    if now - e.resolved_at < e.ttl then (e.value, e, false)
    else
      let v := resolver ()
      (v, ⟨v, now, ttl⟩, true)
  | none =>
    let v := resolver ()
    (v, ⟨v, now, ttl⟩, true)

/-! ## Concrete data for witnesses and counterexamples -/

/-- The record shape of `data/fallback_economics.json` (spec §6; the keys the
scorecard and tests read). -/
structure EconRecord where
  culture_share_gdp : ℚ
  total_financial_resources : ℚ
  financial_resources_growth : ℚ
  avg_monthly_wage : Int
  unemployment_rate_culture : ℚ
  inflation_rate_2024 : ℚ
deriving DecidableEq

/-- An economics snapshot whose `avg_monthly_wage` is 28500 (the C2 scenario). -/
def econExample : EconRecord :=
  ⟨14/10, 211/10, 52/10, 28500, 21/10, 24/10⟩

/-- A 19-row UNESCO snapshot.  The two most-visited rows, `Telc` and `Brno`,
are tied at 900000 visitors, with `Telc` appearing first in the file although
`"Brno"` is lexicographically smaller. -/
def unesco_rows_19 : List UnescoRow :=
  [⟨"Telc", 491/10, 155/10, 900000, 310⟩,
   ⟨"Brno", 492/10, 166/10, 900000, 250⟩,
   ⟨"Prague Castle", 501/10, 144/10, 850000, 420⟩,
   ⟨"Cesky Krumlov", 488/10, 143/10, 700000, 380⟩,
   ⟨"Kutna Hora", 499/10, 153/10, 600000, 200⟩,
   ⟨"Lednice", 488/10, 167/10, 500000, 180⟩,
   ⟨"Olomouc", 496/10, 171/10, 400000, 150⟩,
   ⟨"Litomysl", 499/10, 163/10, 300000, 140⟩,
   ⟨"Trebic", 492/10, 156/10, 250000, 130⟩,
   ⟨"Zelena Hora", 496/10, 159/10, 200000, 120⟩,
   ⟨"Holasovice", 490/10, 143/10, 150000, 110⟩,
   ⟨"Kromeriz", 493/10, 174/10, 140000, 100⟩,
   ⟨"Karlovy Vary", 502/10, 129/10, 130000, 90⟩,
   ⟨"Zatec", 503/10, 135/10, 120000, 80⟩,
   ⟨"Kladruby", 500/10, 154/10, 110000, 70⟩,
   ⟨"Erzgebirge", 505/10, 130/10, 100000, 60⟩,
   ⟨"Pruhonice", 500/10, 146/10, 90000, 50⟩,
   ⟨"Vila Tugendhat", 492/10, 166/10, 80000, 40⟩,
   ⟨"Trinity Column", 496/10, 171/10, 70000, 30⟩]

/-- An artist snapshot that parses but contains no `registered_count` row. -/
def artist_rows_no_count : List ArtistRow :=
  [⟨"music", "45.0"⟩, ⟨"visual_arts", "30.0"⟩, ⟨"theatre", "25.0"⟩]

/-- A budget snapshot holding rows for both 2023 and 2024. -/
def budget_rows_2324 : List BudgetRow :=
  [⟨2023, "Heritage Preservation", 4200000000, "Monument care"⟩,
   ⟨2024, "Heritage Preservation", 4500000000, "Monument care"⟩,
   ⟨2024, "Live Arts", 2100000000, "Performing arts support"⟩]

/-- The 2024 rows of `budget_rows_2324`, in snapshot order. -/
def budget_res_2024 : List BudgetRow :=
  [⟨2024, "Heritage Preservation", 4500000000, "Monument care"⟩,
   ⟨2024, "Live Arts", 2100000000, "Performing arts support"⟩]

/-! ## Theorems -/

/-- Helper: the sum of `Amount_CZK` over the year-filtered rows equals the sum
over all rows with non-matching years contributing zero. -/
theorem sum_amount_filter (year : Int) (rows : List BudgetRow) :
    ((rows.filter (fun r => r.Year == year)).map BudgetRow.Amount_CZK).sum
      = (rows.map (fun r => if r.Year = year then r.Amount_CZK else 0)).sum := by
  induction rows with
  | nil => rfl
  | cons a l ih =>
    by_cases ha : a.Year = year
    · simp [List.filter_cons, ha, ih]
    · simp [List.filter_cons, ha, ih]

/-- C2: whenever the CZSO live probe fails (connection error, timeout, or a
non-200 status) and the economics snapshot file exists and parses as `r`,
`load_economic_indicators` returns exactly `r` — the snapshot content,
unchanged. -/
theorem load_econ_probe_failed_eq_snapshot {α : Type} (probe : Except PyErr HttpResponse)
    (file : Except PyErr α) (r : α)
    (_hp : DataLoader.probeFailed probe = true) (hf : file = Except.ok r) :
    DataLoader.load_economic_indicators probe file = Except.ok (some r) := by
  subst hf; rfl

/-- C2 witness: with the probe a connection error and the snapshot holding
`avg_monthly_wage = 28500`, the loader serves that snapshot record. -/
theorem load_econ_probe_failed_eq_snapshot_witness :
    DataLoader.probeFailed (Except.error (PyErr.requestError "ConnectionError")) = true ∧
    DataLoader.load_economic_indicators (Except.error (PyErr.requestError "ConnectionError"))
        (Except.ok econExample) = Except.ok (some econExample) ∧
    econExample.avg_monthly_wage = 28500 :=
  ⟨rfl,
   load_econ_probe_failed_eq_snapshot (Except.error (PyErr.requestError "ConnectionError"))
     (Except.ok econExample) econExample rfl rfl,
   rfl⟩

/-- C1 counterexample: with an artist snapshot that exists and parses but has
no `registered_count` row, `load_artist_status` returns a populated record
whose `registered_count` was silently defaulted to `0` (data_loader.py line
157) — not an `Unavailable` signal, contradicting the claim that a required
field is never silently zero-defaulted. -/
theorem load_artist_status_zero_default_counterexample :
    (DataLoader.load_artist_status (Except.ok artist_rows_no_count)).map
        (Option.map ArtistRecord.registered_count)
      = Except.ok (some 0) := rfl

/-- C1 (amended): when the artist-registry snapshot file is absent or
unreadable (the read raises), `load_artist_status` returns `None`
(`Unavailable`) — never a zero-count record; the zero default occurs only when
the snapshot parses without a `registered_count` row. -/
theorem load_artist_status_missing_file_none (file : Except PyErr (List ArtistRow))
    (e : PyErr) (h : file = Except.error e) :
    DataLoader.load_artist_status file = Except.ok none := by
  subst h; rfl

/-- C1 witness: a missing snapshot file (`FileNotFoundError`) yields `None`. -/
theorem load_artist_status_missing_file_none_witness :
    DataLoader.load_artist_status
        (Except.error (PyErr.ioError "FileNotFoundError: data/fallback_artists.csv"))
      = Except.ok none :=
  load_artist_status_missing_file_none
    (Except.error (PyErr.ioError "FileNotFoundError: data/fallback_artists.csv"))
    (PyErr.ioError "FileNotFoundError: data/fallback_artists.csv") rfl

/-- C3: the `scheduler_started` guard lives in Streamlit's per-session
`st.session_state`, so re-runs within one session register the 06:00 cron job
once, but a second session in the same process registers it again: after runs
by sessions 0 and 1 the process holds two registrations of the same job,
violating the once-per-process-lifetime requirement. -/
theorem scheduler_registered_once_per_session_not_process :
    (script_runs [0, 0, 0] freshProcess).jobs = 1 ∧
    (script_runs [0, 1] freshProcess).jobs = 2 := by decide

/-- C4 counterexample: on a 19-row snapshot whose two top rows, `Telc` and
`Brno`, are tied at 900000 visitors, the ordering that keeps `Telc` before
`Brno` is a possible output of `sort_values("visitors_2024",
ascending=False)` — it is a permutation sorted by the key, which is all
pandas' non-stable default quicksort guarantees — even though `"Brno"` is
lexicographically smaller, so the top-5 table is not tie-broken by name
ascending. -/
theorem unesco_tiebreak_counterexample :
    unesco_rows_19.length = 19 ∧
    sort_values_desc_output unesco_rows_19 (projectTop unesco_rows_19) ∧
    ((projectTop unesco_rows_19).take 2).map (fun r => (r.name, r.visitors_2024))
      = [("Telc", 900000), ("Brno", 900000)] ∧
    ("Brno" : String) < "Telc" :=
  ⟨rfl, ⟨List.Perm.refl _, by decide⟩, rfl, String.lt_iff_toList_lt.mpr (by decide)⟩

/-- C4 (amended): when the UNESCO snapshot has 19 rows, `load_unesco_sites`
returns exactly those 19 records, and every possible top-5 table (`head(5)` of
any output the non-stable single-key sort may produce) has exactly 5 records,
sorted by `visitors_2024` descending, all drawn from the snapshot; the
relative order of records tied on `visitors_2024` is unspecified — in
particular it is not guaranteed to be name-ascending. -/
theorem unesco_19_rows_top5 (file : Except PyErr (List UnescoRow))
    (rows : List UnescoRow) (out : List TopSiteRow) (hf : file = Except.ok rows)
    (hn : rows.length = 19) (hout : sort_values_desc_output rows out) :
    DataLoader.load_unesco_sites file = Except.ok rows ∧
    (out.take 5).length = 5 ∧
    List.Sorted visitorsDesc (out.take 5) ∧
    ∀ r ∈ out.take 5, r ∈ projectTop rows := by
  subst hf
  obtain ⟨hperm, hsorted⟩ := hout
  have hlen : out.length = 19 := by
    have h := hperm.length_eq
    simpa [projectTop, hn] using h
  refine ⟨rfl, ?_, ?_, ?_⟩
  · rw [List.length_take, hlen]
    omega
  · exact List.Pairwise.sublist (List.take_sublist 5 _) hsorted
  · intro r hr
    exact hperm.mem_iff.mp (List.mem_of_mem_take hr)

/-- C4 witness: the amended statement instantiated on the concrete 19-row
snapshot and a concrete possible sort output. -/
theorem unesco_19_rows_top5_witness :
    DataLoader.load_unesco_sites (Except.ok unesco_rows_19) = Except.ok unesco_rows_19 ∧
    ((projectTop unesco_rows_19).take 5).length = 5 ∧
    List.Sorted visitorsDesc ((projectTop unesco_rows_19).take 5) :=
  let h := unesco_19_rows_top5 (Except.ok unesco_rows_19) unesco_rows_19
    (projectTop unesco_rows_19) rfl rfl ⟨List.Perm.refl _, by decide⟩
  ⟨h.1, h.2.1, h.2.2.1⟩

/-- C5 counterexample: a refresh run in which the economics fetch body
completes (its probe would "succeed") and the UNESCO body raises leaves every
snapshot file — the economics file included — byte-for-byte unchanged and
records no `Updated` outcome: the fetch steps of update_data.py never probe
and never write (the request and write calls are commented out). -/
theorem refresh_scenario_counterexample :
    update_all_data
        ⟨Except.error (PyErr.requestError "unesco endpoint unreachable"),
         Except.ok (), Except.ok ()⟩
        ⟨some "old unesco csv", some "old economics json", some "old artists csv"⟩
      = (⟨some "old unesco csv", some "old economics json", some "old artists csv"⟩,
         [(DatasetId.unesco, FetchOutcome.caught (PyErr.requestError "unesco endpoint unreachable")),
          (DatasetId.economics, FetchOutcome.completed),
          (DatasetId.artists, FetchOutcome.completed)]) := rfl

/-- C5 (amended): in every refresh-loop run the snapshot store is left
byte-for-byte unchanged for every dataset — the current fetch steps are stubs
that perform no live probe and no snapshot write, so no dataset is ever
updated and the only guarantee that survives is the failure half: existing
snapshots are never touched. -/
theorem update_all_data_preserves_store (env : RefreshEnv) (store : SnapshotStore) :
    (update_all_data env store).1 = store := by
  obtain ⟨u, e, a⟩ := env
  cases u <;> cases e <;> cases a <;> rfl

/-- C6: `load_budget y` on a parsed snapshot returns exactly the rows whose
`Year` is `y` — membership implies year `y`, multiplicity of every year-`y`
row is preserved, rows of other years are absent — and the module's displayed
total (`total_budget`, app.py line 171) is exactly the sum of `Amount_CZK`
over those rows. -/
theorem load_budget_year_filter (year : Int) (rows res : List BudgetRow)
    (h : DataLoader.load_budget year (Except.ok rows) = Except.ok res) :
    (∀ r ∈ res, r.Year = year) ∧
    (∀ r : BudgetRow, r.Year = year → res.count r = rows.count r) ∧
    (∀ r : BudgetRow, r.Year ≠ year → res.count r = 0) ∧
    total_budget res
      = (rows.map (fun r => if r.Year = year then r.Amount_CZK else 0)).sum := by
  have hres : res = rows.filter (fun r => r.Year == year) := by
    have h' := h
    simp only [DataLoader.load_budget, pyTry, Except.ok.injEq] at h'
    exact h'.symm
  subst hres
  refine ⟨?_, ?_, ?_, ?_⟩
  · intro r hr
    simpa using (List.mem_filter.mp hr).2
  · intro r hr
    exact List.count_filter (by simpa using hr)
  · intro r hr
    refine List.count_eq_zero.mpr ?_
    intro hm
    exact hr (by simpa using (List.mem_filter.mp hm).2)
  · simpa [total_budget] using sum_amount_filter year rows

/-- C6 witness: on the 2023/2024 snapshot, requesting 2024 yields the two 2024
rows and the displayed total is their `Amount_CZK` sum. -/
theorem load_budget_year_filter_witness :
    total_budget budget_res_2024
      = (budget_rows_2324.map
          (fun r => if r.Year = 2024 then r.Amount_CZK else 0)).sum :=
  (load_budget_year_filter 2024 budget_rows_2324 budget_res_2024 rfl).2.2.2

/-- C7: `update_all_data` invokes the fetch step for all three registered
datasets in order, for every combination of per-dataset failures (each fetch
catches internally, so one dataset raising inside its body never aborts the
remaining fetches), and the run completes normally. -/
theorem update_all_data_runs_every_fetch (env : RefreshEnv) (store : SnapshotStore) :
    ((update_all_data env store).2).map Prod.fst
      = [DatasetId.unesco, DatasetId.economics, DatasetId.artists] := by
  obtain ⟨u, e, a⟩ := env
  cases u <;> cases e <;> cases a <;> rfl

/-- C8: resolving through the TTL cache twice within the TTL window serves the
identical value the second time without invoking the resolver again, and an
entry older than its TTL is treated exactly as an absent entry. -/
theorem getOrResolve_ttl (α : Type) (resolver : Unit → α) (t0 t1 ttl : Nat)
    (h : t1 - t0 < ttl) :
    (getOrResolve t0 ttl none resolver).2.2 = true ∧
    getOrResolve t1 ttl (some (getOrResolve t0 ttl none resolver).2.1) resolver
      = ((getOrResolve t0 ttl none resolver).1,
         (getOrResolve t0 ttl none resolver).2.1, false) ∧
    ∀ t2, ttl ≤ t2 - t0 →
      getOrResolve t2 ttl (some (getOrResolve t0 ttl none resolver).2.1) resolver
        = getOrResolve t2 ttl none resolver := by
  refine ⟨rfl, ?_, ?_⟩
  · simp [getOrResolve, h]
  · intro t2 h2
    simp [getOrResolve, Nat.not_lt.mpr h2]

/-- C8 witness: with the economics dataset's 24-hour TTL, a second access one
hour after the first serves the cached value without re-resolving. -/
theorem getOrResolve_ttl_witness :
    3600 - 0 < DataLoader.econ_ttl ∧
    getOrResolve 3600 DataLoader.econ_ttl
        (some (getOrResolve 0 DataLoader.econ_ttl none (fun _ => (28500 : Nat))).2.1)
        (fun _ => (28500 : Nat))
      = ((getOrResolve 0 DataLoader.econ_ttl none (fun _ => (28500 : Nat))).1,
         (getOrResolve 0 DataLoader.econ_ttl none (fun _ => (28500 : Nat))).2.1, false) :=
  ⟨by decide,
   (getOrResolve_ttl Nat (fun _ => (28500 : Nat)) 0 3600 DataLoader.econ_ttl (by decide)).2.1⟩

/-- C9: every public loader of `DataLoader` returns normally on every input
state — missing files, malformed snapshots, raised requests — because each
method's whole fallible body sits inside `try/except`; no exception reaches
the caller. -/
theorem loaders_never_raise {α : Type} (probe : Except PyErr HttpResponse)
    (econFile : Except PyErr α) (unescoFile : Except PyErr (List UnescoRow))
    (year : Int) (budgetFile : Except PyErr (List BudgetRow))
    (namedayResp : Except PyErr NamedayHttp) (artistFile : Except PyErr (List ArtistRow)) :
    isOkResult (DataLoader.load_economic_indicators probe econFile) = true ∧
    isOkResult (DataLoader.load_unesco_sites unescoFile) = true ∧
    isOkResult (DataLoader.load_budget year budgetFile) = true ∧
    isOkResult (DataLoader.load_nameday namedayResp) = true ∧
    isOkResult (DataLoader.load_artist_status artistFile) = true :=
  ⟨rfl, rfl, rfl, rfl, rfl⟩

/-- C10: `load_nameday` (1-hour TTL, 3-second timeout, no snapshot fallback)
returns the first entry's `name` when the API responds with a non-empty list,
`"Unknown"` on an empty list, and `None` on any request or parse failure —
raised request, HTTP 4xx/5xx error status (`raise_for_status` raises exactly
for `400 ≤ status < 600`; other statuses proceed to the body), unparseable
JSON, or first entry without a `name` key. -/
theorem load_nameday_cases (resp : Except PyErr NamedayHttp) :
    DataLoader.nameday_ttl = 3600 ∧ DataLoader.nameday_timeout = 3 ∧
    (∀ e, resp = Except.error e → DataLoader.load_nameday resp = Except.ok none) ∧
    (∀ r, resp = Except.ok r → 400 ≤ r.status → r.status < 600 →
        DataLoader.load_nameday resp = Except.ok none) ∧
    (∀ r e, resp = Except.ok r → (r.status < 400 ∨ 600 ≤ r.status) →
        r.json = Except.error e →
        DataLoader.load_nameday resp = Except.ok none) ∧
    (∀ r, resp = Except.ok r → (r.status < 400 ∨ 600 ≤ r.status) →
        r.json = Except.ok [] →
        DataLoader.load_nameday resp = Except.ok (some "Unknown")) ∧
    (∀ r d rest name, resp = Except.ok r → (r.status < 400 ∨ 600 ≤ r.status) →
        r.json = Except.ok (d :: rest) → d.lookup "name" = some name →
        DataLoader.load_nameday resp = Except.ok (some name)) ∧
    (∀ r d rest, resp = Except.ok r → (r.status < 400 ∨ 600 ≤ r.status) →
        r.json = Except.ok (d :: rest) → d.lookup "name" = none →
        DataLoader.load_nameday resp = Except.ok none) := by
  refine ⟨rfl, rfl, ?_, ?_, ?_, ?_, ?_, ?_⟩
  · rintro e rfl; rfl
  · rintro r rfl hs1 hs2
    simp [DataLoader.load_nameday, pyTry, hs1, hs2]
  · rintro r e rfl hds hj
    have hc : ¬(400 ≤ r.status ∧ r.status < 600) := by omega
    simp [DataLoader.load_nameday, pyTry, hc, hj]
  · rintro r rfl hds hj
    have hc : ¬(400 ≤ r.status ∧ r.status < 600) := by omega
    simp [DataLoader.load_nameday, pyTry, hc, hj]
  · rintro r d rest name rfl hds hj hname
    have hc : ¬(400 ≤ r.status ∧ r.status < 600) := by omega
    simp [DataLoader.load_nameday, pyTry, hc, hj, hname]
  · rintro r d rest rfl hds hj hname
    have hc : ¬(400 ≤ r.status ∧ r.status < 600) := by omega
    simp [DataLoader.load_nameday, pyTry, hc, hj, hname]

/-- C10 witness: a 200 response whose JSON is a one-entry list yields that
entry's name. -/
theorem load_nameday_cases_witness :
    DataLoader.load_nameday
        (Except.ok ⟨200, Except.ok [[("date", "2112"), ("name", "Natalie")]]⟩)
      = Except.ok (some "Natalie") :=
  (load_nameday_cases
      (Except.ok ⟨200, Except.ok [[("date", "2112"), ("name", "Natalie")]]⟩)).2.2.2.2.2.2.1
    ⟨200, Except.ok [[("date", "2112"), ("name", "Natalie")]]⟩
    [("date", "2112"), ("name", "Natalie")] [] "Natalie" rfl (Or.inl (by decide)) rfl rfl
